import Mathlib

/-!
Verification development for the Telco churn EDA script
(`src/eda_script.py`).  The script is a linear pipeline:
load CSV → normalize the label column → rename columns → build five
charts and one categorical summary table → assert the five chart
objects are non-null → write six image files into `out_dir`.

We shallowly embed the dataframe operations (pandas `replace`,
`rename`, `select_dtypes`, `unique`, `nunique`, `isnull().sum()`) and
the control flow of `main` as a trace-producing function `run` over an
environment that supplies the outcomes of the external calls
(directory existence, CSV parse result, chart-object nullness, write
failures).
-/

/-- A pandas cell value: booleans, strings, numbers (abstracted to `Int`;
no claim depends on float arithmetic), and null/NaN. -/
inductive PyVal where
  | vBool : Bool → PyVal
  | vStr : String → PyVal
  | vNum : Int → PyVal
  | vNull : PyVal
deriving DecidableEq, Inhabited

/-- A dataframe: ordered named columns, each a list of cell values. -/
abbrev DataFrame := List (String × List PyVal)

/-- `df[name]`: the first column with the given name, if any
(a missing column is a `KeyError` in pandas). -/
def getCol (df : DataFrame) (name : String) : Option (List PyVal) :=
  match df with
  | [] => none
  | (n, vs) :: rest => if n = name then some vs else getCol rest name

/-- `df[name] = vs`: overwrite the first column with the given name, or
append a new column at the end when absent (pandas assignment). -/
def setCol (df : DataFrame) (name : String) (vs : List PyVal) : DataFrame :=
  match df with
  | [] => [(name, vs)]
  | (n, ws) :: rest =>
    if n = name then (n, vs) :: rest else (n, ws) :: setCol rest name vs

/-- `series.replace(old, new)`: pointwise substitution of one value. -/
def seriesReplace (old new : PyVal) (vs : List PyVal) : List PyVal :=
  vs.map (fun v => if v = old then new else v)

/-- The label wrangling of `main`:
`train_df['Churn'].replace(True, "True")` then `.replace(False, "False")`. -/
def normalizeChurn (vs : List PyVal) : List PyVal :=
  seriesReplace (PyVal.vBool false) (PyVal.vStr "False")
    (seriesReplace (PyVal.vBool true) (PyVal.vStr "True") vs)

/-- The fixed 15-entry column rename mapping passed to `train_df.rename`. -/
def renameMap : List (String × String) :=
  [("tenure", "Tenure"),
   ("SeniorCitizen", "Senior Citizen"),
   ("MonthlyCharges", "Monthly Charges"),
   ("TotalCharges", "Total Charges"),
   ("InternetService", "Internet Service"),
   ("MultipleLines", "Multiple Lines"),
   ("OnlineSecurity", "Online Security"),
   ("OnlineBackup", "Online Backup"),
   ("DeviceProtection", "Device Protection"),
   ("StreamingMovies", "Streaming Movies"),
   ("StreamingTV", "Streaming TV"),
   ("PhoneService", "Phone Service"),
   ("TechSupport", "Tech Support"),
   ("PaperlessBilling", "Paperless Billing"),
   ("PaymentMethod", "Payment Method")]

/-- How `DataFrame.rename(columns=m)` treats one column name: the mapped
name when the mapping has an entry for it, the name itself otherwise. -/
def applyRename (m : List (String × String)) (n : String) : String :=
  match m with
  | [] => n
  | (src, dst) :: rest => if n = src then dst else applyRename rest n

/-- `df.rename(columns=m)`: rename each column by the mapping, values
untouched. -/
def renameCols (m : List (String × String)) (df : DataFrame) : DataFrame :=
  df.map (fun c => (applyRename m c.1, c.2))

/-- The processed Dataset of `main`: label normalization then rename,
given the original `Churn` column contents. -/
def processDF (df : DataFrame) (churn : List PyVal) : DataFrame :=
  renameCols renameMap (setCol df "Churn" (normalizeChurn churn))

/-- Whether a cell is numeric-like for dtype purposes (numbers, and
NaN which pandas stores as a float). -/
def PyVal.isNumericLike : PyVal → Bool
  | .vNum _ => true
  | .vNull => true
  | _ => false

/-- `select_dtypes(include='object')` membership: a column is
object-typed when it holds some non-numeric value. -/
def colIsObject (vs : List PyVal) : Bool :=
  vs.any (fun v => ! v.isNumericLike)

/-- Worker for `pdUnique`: keep the first occurrence of each value,
tracking the values already emitted. -/
def pdUniqueGo : List PyVal → List PyVal → List PyVal
  | [], _ => []
  | v :: vs, seen =>
    if v ∈ seen then pdUniqueGo vs seen else v :: pdUniqueGo vs (v :: seen)

/-- `series.unique()`: distinct values in order of first appearance
(nulls included). -/
def pdUnique (l : List PyVal) : List PyVal := pdUniqueGo l []

/-- `series.nunique()`: number of distinct non-null values. -/
def nunique (vs : List PyVal) : Nat :=
  (pdUnique (vs.filter (fun v => v ≠ PyVal.vNull))).length

/-- `series.isnull().sum()`: number of nulls. -/
def isnullSum (vs : List PyVal) : Nat :=
  vs.countP (fun v => v = PyVal.vNull)

/-- One row of `catfeatures_stats`: Feature, Unique values, Categories,
Missing values. -/
structure CatRow where
  feature : String
  uniqueValues : List PyVal
  categories : Nat
  missingValues : Nat
deriving DecidableEq

/-- The `catfeatures_stats` loop of `main`: one row per object-typed
column of the processed dataframe. -/
def catSummary (df : DataFrame) : List CatRow :=
  (df.filter (fun c => colIsObject c.2)).map
    (fun c => ⟨c.1, pdUnique c.2, nunique c.2, isnullSum c.2⟩)

/-- Specification-side recount: distinct non-null values of a column,
via Mathlib dedup. -/
def countDistinctNonNull (vs : List PyVal) : Nat :=
  ((vs.filter (fun v => v ≠ PyVal.vNull)).dedup).length

/-- Specification-side recount: null values of a column. -/
def countNulls (vs : List PyVal) : Nat :=
  vs.countP (fun v => v = PyVal.vNull)

/-- The five chart objects whose non-nullness `main` asserts. -/
inductive FigId where
  | classImbalance
  | numericDist
  | corrHeatmap
  | catChurnDist
  | cat2dHist
deriving DecidableEq

/-- The six visual summaries `main` computes, as pipeline step tags. -/
inductive EdaStep where
  | classImbalance
  | numericDist
  | corrHeatmap
  | catSummaryTable
  | catChurnDist
  | cat2dHist
deriving DecidableEq

/-- Observable events of one execution of `main`. -/
inductive Event where
  | mkdirTried
  | logMsg : String → Event
  | computed : EdaStep → Event
  | assertChecked : FigId → Event
  | wrote : String → Event
  | printed : String → Event
deriving DecidableEq

/-- Errors that terminate `main` uncaught. -/
inductive RunError where
  | pandasError : String → RunError
  | keyError : String → RunError
  | assertionError : String → RunError
  | ioError : String → RunError
deriving DecidableEq

/-- Outcomes of the external calls `main` makes: whether `out_dir`
exists, whether `os.makedirs` fails, the result of `pd.read_csv`,
whether each chart-building call returned None, and which file writes
fail. -/
structure Env where
  dirExists : Bool
  mkdirFails : Bool
  csv : Except String DataFrame
  figIsNone : FigId → Bool
  writeFails : String → Bool

/-- The log message printed when directory creation fails. -/
def mkdirFailMsg : String :=
  "Wasn't able to create output directory. Check permissions."

/-- The `if not os.path.exists(out_dir): try: os.makedirs ... except:`
prologue: a creation failure is logged and swallowed. -/
def ensureDir (env : Env) : List Event :=
  if env.dirExists then []
  else if env.mkdirFails then [Event.mkdirTried, Event.logMsg mkdirFailMsg]
  else [Event.mkdirTried]

/-- The order in which `main` calls `test_figs` on the five charts. -/
def assertOrder : List FigId :=
  [FigId.classImbalance, FigId.corrHeatmap, FigId.catChurnDist,
   FigId.cat2dHist, FigId.numericDist]

/-- The order in which `main` computes the six visual summaries. -/
def computeOrder : List EdaStep :=
  [EdaStep.classImbalance, EdaStep.numericDist, EdaStep.corrHeatmap,
   EdaStep.catSummaryTable, EdaStep.catChurnDist, EdaStep.cat2dHist]

/-- Run the `test_figs` assertions in order; the first null figure
raises `AssertionError("Output figure is empty")`. -/
def runAsserts (figIsNone : FigId → Bool) : List FigId → List Event × Option RunError
  | [] => ([], none)
  | f :: fs =>
    if figIsNone f then ([], some (RunError.assertionError "Output figure is empty"))
    else
      let r := runAsserts figIsNone fs
      (Event.assertChecked f :: r.1, r.2)

/-- Output path formation: the f-string `f"..."` concatenates `out_dir`
with the fixed file name directly, no separator inserted. -/
def outputPath (out_dir name : String) : String := out_dir ++ name

/-- The fixed output file names, in write order. -/
def outFiles : List String :=
  ["table_1_cat_unique_values.png",
   "figure_1_class_imbalance.png",
   "figure_2_numeric_feat_dist.png",
   "figure_3_numeric_feat_corr.png",
   "figure_4_cat_feat_churn_dist.png",
   "figure_5_cat_feat_2dhist.png"]

/-- Perform the file writes in order; a failing write raises uncaught. -/
def runWrites (writeFails : String → Bool) (out_dir : String) : List String → List Event × Option RunError
  | [] => ([], none)
  | n :: ns =>
    let p := outputPath out_dir n
    if writeFails p then ([], some (RunError.ioError p))
    else
      let r := runWrites writeFails out_dir ns
      (Event.wrote p :: r.1, r.2)

/-- Everything in `main` after the directory prologue: read, wrangle,
rename, compute the six summaries, assert, write, print.  Returns the
event trace and either the uncaught error or the processed Dataset. -/
def runRest (env : Env) (out_dir : String) : List Event × Except RunError DataFrame :=
  match env.csv with
  | Except.error m => ([], Except.error (RunError.pandasError m))
  | Except.ok train_df =>
    match getCol train_df "Churn" with
    | none => ([], Except.error (RunError.keyError "Churn"))
    | some churn =>
      let df1 := processDF train_df churn
      let evC := computeOrder.map Event.computed
      let ra := runAsserts env.figIsNone assertOrder
      match ra.2 with
      | some e => (evC ++ ra.1, Except.error e)
      | none =>
        let rwr := runWrites env.writeFails out_dir outFiles
        match rwr.2 with
        | some e => (evC ++ ra.1 ++ rwr.1, Except.error e)
        | none =>
          (evC ++ ra.1 ++ rwr.1 ++
             [Event.printed ("EDA reports successfully stored in: " ++ out_dir)],
           Except.ok df1)

/-- `main(input, out_dir)` of the EDA script. -/
def run (env : Env) (input out_dir : String) : List Event × Except RunError DataFrame :=
  let r := runRest env out_dir
  (ensureDir env ++ r.1, r.2)

/-- The paths written by a trace, in order. -/
def writtenPaths (t : List Event) : List String :=
  t.filterMap (fun e => match e with | Event.wrote p => some p | _ => none)

/-- The summaries computed by a trace, in order. -/
def computedSteps (t : List Event) : List EdaStep :=
  t.filterMap (fun e => match e with | Event.computed s => some s | _ => none)

/-- The figures assert-checked by a trace, in order. -/
def assertedFigs (t : List Event) : List FigId :=
  t.filterMap (fun e => match e with | Event.assertChecked f => some f | _ => none)

/-- The final path component of a string path (suffix after the last
slash; the whole string when it has no slash). -/
def lastComponentChars (cs : List Char) : List Char :=
  (cs.reverse.takeWhile (fun c => c ≠ '/')).reverse

/-- String version of `lastComponentChars`. -/
def lastComponent (s : String) : String :=
  ⟨lastComponentChars s.data⟩

/-! ### Helper lemmas about the embedded operations -/

theorem pdUniqueGo_mem (l : List PyVal) : ∀ (seen : List PyVal) (a : PyVal),
    a ∈ pdUniqueGo l seen ↔ a ∈ l ∧ a ∉ seen := by
  induction l with
  | nil => intro seen a; simp [pdUniqueGo]
  | cons v vs ih =>
    intro seen a
    rw [pdUniqueGo]
    by_cases hv : v ∈ seen
    · rw [if_pos hv, ih seen a, List.mem_cons]
      by_cases hav : a = v
      · subst hav; simp [hv]
      · simp [hav]
    · rw [if_neg hv, List.mem_cons, ih (v :: seen) a, List.mem_cons, List.mem_cons]
      by_cases hav : a = v
      · subst hav; simp [hv]
      · simp [hav]

theorem pdUnique_mem (l : List PyVal) (a : PyVal) : a ∈ pdUnique l ↔ a ∈ l := by
  rw [pdUnique, pdUniqueGo_mem l [] a]
  simp

theorem pdUniqueGo_nodup (l : List PyVal) : ∀ seen : List PyVal, (pdUniqueGo l seen).Nodup := by
  induction l with
  | nil => intro seen; simp [pdUniqueGo]
  | cons v vs ih =>
    intro seen
    rw [pdUniqueGo]
    by_cases hv : v ∈ seen
    · rw [if_pos hv]; exact ih seen
    · rw [if_neg hv]
      refine List.nodup_cons.2 ⟨?_, ih (v :: seen)⟩
      intro hmem
      exact ((pdUniqueGo_mem vs (v :: seen) v).1 hmem).2 (List.mem_cons_self v seen)

theorem pdUnique_nodup (l : List PyVal) : (pdUnique l).Nodup :=
  pdUniqueGo_nodup l []

theorem pdUnique_toFinset (l : List PyVal) : (pdUnique l).toFinset = l.toFinset := by
  ext a
  simp [List.mem_toFinset, pdUnique_mem]

theorem pdUnique_length (l : List PyVal) : (pdUnique l).length = l.dedup.length := by
  rw [← List.card_toFinset l, ← pdUnique_toFinset l,
    List.toFinset_card_of_nodup (pdUnique_nodup l)]

theorem nunique_eq_countDistinctNonNull (vs : List PyVal) :
    nunique vs = countDistinctNonNull vs := by
  rw [nunique, countDistinctNonNull, pdUnique_length]

theorem isnullSum_eq_countNulls (vs : List PyVal) : isnullSum vs = countNulls vs := rfl

theorem getCol_setCol_ne (df : DataFrame) (name m : String) (vs : List PyVal)
    (h : m ≠ name) : getCol (setCol df name vs) m = getCol df m := by
  induction df with
  | nil =>
    have hnm : ¬ name = m := fun h2 => h h2.symm
    simp only [setCol, getCol, if_neg hnm]
  | cons c rest ih =>
    obtain ⟨n, ws⟩ := c
    simp only [setCol]
    by_cases hn : n = name
    · rw [if_pos hn]
      have hnm : ¬ n = m := fun h2 => h (h2.symm.trans hn)
      simp only [getCol, if_neg hnm]
    · rw [if_neg hn]
      simp only [getCol]
      by_cases hm : n = m
      · rw [if_pos hm, if_pos hm]
      · rw [if_neg hm, if_neg hm]
        exact ih

theorem runAsserts_ok (fig : FigId → Bool) (l : List FigId)
    (h : ∀ f ∈ l, fig f = false) :
    runAsserts fig l = (l.map Event.assertChecked, none) := by
  induction l with
  | nil => rfl
  | cons f fs ih =>
    have hf : fig f = false := h f (List.mem_cons_self f fs)
    rw [runAsserts, hf]
    simp only [Bool.false_eq_true, if_false, List.map_cons]
    rw [ih (fun g hg => h g (List.mem_cons_of_mem f hg))]

theorem runAsserts_err (fig : FigId → Bool) (l : List FigId)
    (h : ∃ f ∈ l, fig f = true) :
    (runAsserts fig l).2 = some (RunError.assertionError "Output figure is empty") := by
  induction l with
  | nil => simp at h
  | cons f fs ih =>
    rw [runAsserts]
    by_cases hf : fig f = true
    · simp [hf]
    · simp only [hf, Bool.false_eq_true, if_false]
      rcases h with ⟨g, hg, hgt⟩
      rcases List.mem_cons.1 hg with rfl | hg2
      · exact absurd hgt hf
      · exact ih ⟨g, hg2, hgt⟩

theorem runAsserts_no_wrote (fig : FigId → Bool) (l : List FigId) :
    writtenPaths (runAsserts fig l).1 = [] := by
  induction l with
  | nil => rfl
  | cons f fs ih =>
    rw [runAsserts]
    by_cases hf : fig f = true
    · simp [hf, writtenPaths]
    · simp only [hf, Bool.false_eq_true, if_false]
      simpa [writtenPaths] using ih

theorem runAsserts_no_computed (fig : FigId → Bool) (l : List FigId) :
    computedSteps (runAsserts fig l).1 = [] := by
  induction l with
  | nil => rfl
  | cons f fs ih =>
    rw [runAsserts]
    by_cases hf : fig f = true
    · simp [hf, computedSteps]
    · simp only [hf, Bool.false_eq_true, if_false]
      simpa [computedSteps] using ih

theorem runWrites_ok (w : String → Bool) (out_dir : String) (l : List String)
    (h : ∀ n ∈ l, w (outputPath out_dir n) = false) :
    runWrites w out_dir l = (l.map (fun n => Event.wrote (outputPath out_dir n)), none) := by
  induction l with
  | nil => rfl
  | cons n ns ih =>
    have hn : w (outputPath out_dir n) = false := h n (List.mem_cons_self n ns)
    rw [runWrites]
    simp only [hn, Bool.false_eq_true, if_false, List.map_cons]
    rw [ih (fun m hm => h m (List.mem_cons_of_mem n hm))]

theorem runWrites_no_computed (w : String → Bool) (out_dir : String) (l : List String) :
    computedSteps (runWrites w out_dir l).1 = [] := by
  induction l with
  | nil => rfl
  | cons n ns ih =>
    rw [runWrites]
    by_cases hn : w (outputPath out_dir n) = true
    · simp [hn, computedSteps]
    · simp only [hn, Bool.false_eq_true, if_false]
      simpa [computedSteps] using ih

theorem ensureDir_no_wrote (env : Env) : writtenPaths (ensureDir env) = [] := by
  by_cases h1 : env.dirExists <;> by_cases h2 : env.mkdirFails <;>
    simp [ensureDir, h1, h2, writtenPaths]

theorem ensureDir_no_computed (env : Env) : computedSteps (ensureDir env) = [] := by
  by_cases h1 : env.dirExists <;> by_cases h2 : env.mkdirFails <;>
    simp [ensureDir, h1, h2, computedSteps]

theorem writtenPaths_append (a b : List Event) :
    writtenPaths (a ++ b) = writtenPaths a ++ writtenPaths b :=
  List.filterMap_append a b _

theorem computedSteps_append (a b : List Event) :
    computedSteps (a ++ b) = computedSteps a ++ computedSteps b :=
  List.filterMap_append a b _

theorem writtenPaths_wrote_map (l : List String) (g : String → String) :
    writtenPaths (l.map (fun n => Event.wrote (g n))) = l.map g := by
  induction l with
  | nil => rfl
  | cons n ns ih => simpa [writtenPaths] using ih

theorem computedSteps_computed_map (l : List EdaStep) :
    computedSteps (l.map Event.computed) = l := by
  induction l with
  | nil => rfl
  | cons s ss ih => simpa [computedSteps] using ih

theorem assertedFigs_checked_map (l : List FigId) :
    assertedFigs (l.map Event.assertChecked) = l := by
  induction l with
  | nil => rfl
  | cons f fs ih => simpa [assertedFigs] using ih

theorem figId_mem_assertOrder (f : FigId) : f ∈ assertOrder := by
  cases f <;> simp [assertOrder]

theorem takeWhile_append_all {α : Type} (p : α → Bool) (l₁ l₂ : List α)
    (h : ∀ x ∈ l₁, p x = true) :
    (l₁ ++ l₂).takeWhile p = l₁ ++ l₂.takeWhile p := by
  induction l₁ with
  | nil => simp
  | cons a l ih =>
    simp only [List.cons_append, List.takeWhile_cons]
    rw [h a (List.mem_cons_self a l), if_pos rfl,
      ih (fun x hx => h x (List.mem_cons_of_mem a hx))]

theorem lastComponentChars_append (a b : List Char)
    (hb : ∀ c ∈ b, c ≠ '/') :
    lastComponentChars (a ++ b) = lastComponentChars a ++ b := by
  unfold lastComponentChars
  rw [List.reverse_append,
    takeWhile_append_all _ b.reverse a.reverse
      (fun c hc => decide_eq_true (hb c (List.mem_reverse.1 hc))),
    List.reverse_append, List.reverse_reverse]

theorem lastComponentChars_ne_nil (cs : List Char) (h0 : cs ≠ [])
    (h1 : cs.getLast? ≠ some '/') : lastComponentChars cs ≠ [] := by
  unfold lastComponentChars
  cases hr : cs.reverse with
  | nil => exact absurd (List.reverse_eq_nil_iff.1 hr) h0
  | cons c rest =>
    have hc : cs.getLast? = some c := by
      rw [← List.head?_reverse, hr]; rfl
    have hcne : c ≠ '/' := fun he => h1 (he ▸ hc)
    rw [List.takeWhile_cons, decide_eq_true hcne, if_pos rfl]
    simp

theorem charsAppend_left_ne (a b : List Char) (ha : a ≠ []) : a ++ b ≠ b := by
  intro he
  have hlen : (a ++ b).length = b.length := by rw [he]
  rw [List.length_append] at hlen
  have ha0 : a.length = 0 := by omega
  exact ha (List.length_eq_zero.1 ha0)

theorem lastComponent_append (out n : String) (hn : ∀ c ∈ n.data, c ≠ '/') :
    lastComponent (out ++ n) = lastComponent out ++ n := by
  apply String.ext
  show lastComponentChars (out ++ n).data = (lastComponent out).data ++ n.data
  have hd : (out ++ n).data = out.data ++ n.data := rfl
  rw [hd, lastComponentChars_append out.data n.data hn]
  rfl

theorem lastComponent_append_ne (out n : String) (hn : ∀ c ∈ n.data, c ≠ '/')
    (h0 : out ≠ "") (h1 : out.data.getLast? ≠ some '/') :
    lastComponent (out ++ n) ≠ n := by
  rw [lastComponent_append out n hn]
  intro he
  have hdata : (lastComponent out).data ++ n.data = n.data := by
    have := congrArg String.data he
    simpa using this
  have hne : (lastComponent out).data ≠ [] := by
    show lastComponentChars out.data ≠ []
    apply lastComponentChars_ne_nil out.data ?h0 h1
    intro hnil
    exact h0 (String.ext hnil)
  exact charsAppend_left_ne _ _ hne hdata

theorem runWrites_first_fail (w : String → Bool) (out_dir n : String) (ns : List String)
    (h : w (outputPath out_dir n) = true) :
    runWrites w out_dir (n :: ns) = ([], some (RunError.ioError (outputPath out_dir n))) := by
  rw [runWrites]
  simp [h]

theorem runRest_mkdir_irrel (env : Env) (b : Bool) (o : String) :
    runRest { env with mkdirFails := b } o = runRest env o := by
  cases env; rfl

theorem run_success_shape (env : Env) (input out_dir : String) (df : DataFrame)
    (churn : List PyVal)
    (hcsv : env.csv = Except.ok df) (hchurn : getCol df "Churn" = some churn)
    (hfig : ∀ f, env.figIsNone f = false)
    (hw : ∀ p, env.writeFails p = false) :
    run env input out_dir =
      (ensureDir env ++ computeOrder.map Event.computed
         ++ assertOrder.map Event.assertChecked
         ++ outFiles.map (fun n => Event.wrote (outputPath out_dir n))
         ++ [Event.printed ("EDA reports successfully stored in: " ++ out_dir)],
       Except.ok (processDF df churn)) := by
  have hra := runAsserts_ok env.figIsNone assertOrder (fun f _ => hfig f)
  have hrw := runWrites_ok env.writeFails out_dir outFiles
    (fun n _ => hw (outputPath out_dir n))
  unfold run runRest
  rw [hcsv]
  simp only [hchurn, hra, hrw]
  simp [List.append_assoc]

theorem run_assert_fail (env : Env) (input out_dir : String) (df : DataFrame)
    (churn : List PyVal)
    (hcsv : env.csv = Except.ok df) (hchurn : getCol df "Churn" = some churn)
    (hnull : ∃ f, env.figIsNone f = true) :
    (run env input out_dir).2 = Except.error (RunError.assertionError "Output figure is empty")
    ∧ writtenPaths (run env input out_dir).1 = []
    ∧ computedSteps (run env input out_dir).1 = computeOrder := by
  have herr : (runAsserts env.figIsNone assertOrder).2
      = some (RunError.assertionError "Output figure is empty") := by
    obtain ⟨f, hf⟩ := hnull
    exact runAsserts_err _ _ ⟨f, figId_mem_assertOrder f, hf⟩
  unfold run runRest
  rw [hcsv]
  simp only [hchurn, herr]
  refine ⟨by trivial, ?_, ?_⟩
  · rw [writtenPaths_append, writtenPaths_append, ensureDir_no_wrote,
      runAsserts_no_wrote]
    have : writtenPaths (computeOrder.map Event.computed) = [] := rfl
    rw [this]
    rfl
  · rw [computedSteps_append, computedSteps_append, ensureDir_no_computed,
      runAsserts_no_computed, computedSteps_computed_map]
    rfl

theorem run_csv_error (env : Env) (input out_dir m : String)
    (hcsv : env.csv = Except.error m) :
    (run env input out_dir).2 = Except.error (RunError.pandasError m) := by
  unfold run runRest
  rw [hcsv]

theorem run_missing_churn (env : Env) (input out_dir : String) (df : DataFrame)
    (hcsv : env.csv = Except.ok df) (hchurn : getCol df "Churn" = none) :
    (run env input out_dir).2 = Except.error (RunError.keyError "Churn") := by
  unfold run runRest
  rw [hcsv]
  simp only [hchurn]

theorem run_write_fail_first (env : Env) (input out_dir : String) (df : DataFrame)
    (churn : List PyVal)
    (hcsv : env.csv = Except.ok df) (hchurn : getCol df "Churn" = some churn)
    (hfig : ∀ f, env.figIsNone f = false)
    (hw1 : env.writeFails (outputPath out_dir "table_1_cat_unique_values.png") = true) :
    (run env input out_dir).2
      = Except.error (RunError.ioError (outputPath out_dir "table_1_cat_unique_values.png")) := by
  have hra := runAsserts_ok env.figIsNone assertOrder (fun f _ => hfig f)
  have hfail := runWrites_first_fail env.writeFails out_dir
    "table_1_cat_unique_values.png"
    ["figure_1_class_imbalance.png", "figure_2_numeric_feat_dist.png",
     "figure_3_numeric_feat_corr.png", "figure_4_cat_feat_churn_dist.png",
     "figure_5_cat_feat_2dhist.png"] hw1
  unfold run runRest
  rw [hcsv]
  simp only [hchurn, hra]
  rw [show outFiles = "table_1_cat_unique_values.png" ::
    ["figure_1_class_imbalance.png", "figure_2_numeric_feat_dist.png",
     "figure_3_numeric_feat_corr.png", "figure_4_cat_feat_churn_dist.png",
     "figure_5_cat_feat_2dhist.png"] from rfl, hfail]

/-! ### Concrete sample data for witnesses and counterexamples -/

/-- A small well-formed dataset: string label column plus one string
and one numeric feature column. -/
def sampleDF : DataFrame :=
  [("customerID", [PyVal.vStr "001", PyVal.vStr "002"]),
   ("Churn", [PyVal.vStr "Yes", PyVal.vStr "No"]),
   ("tenure", [PyVal.vNum 1, PyVal.vNum 2])]

/-- An environment where every external call succeeds. -/
def goodEnv : Env :=
  ⟨true, false, Except.ok sampleDF, fun _ => false, fun _ => false⟩

/-- An environment where every chart-building call returned None. -/
def nullFigEnv : Env :=
  ⟨true, false, Except.ok sampleDF, fun _ => true, fun _ => false⟩

/-- An environment where the output directory is missing and the CSV
read fails. -/
def errEnv : Env :=
  ⟨false, false, Except.error "boom", fun _ => false, fun _ => false⟩

theorem assertedFigs_append (a b : List Event) :
    assertedFigs (a ++ b) = assertedFigs a ++ assertedFigs b :=
  List.filterMap_append a b _

theorem ensureDir_no_asserted (env : Env) : assertedFigs (ensureDir env) = [] := by
  by_cases h1 : env.dirExists <;> by_cases h2 : env.mkdirFails <;>
    simp [ensureDir, h1, h2, assertedFigs]

theorem assertedFigs_computed_map (l : List EdaStep) :
    assertedFigs (l.map Event.computed) = [] := by
  induction l with
  | nil => rfl
  | cons s ss ih => simpa [assertedFigs] using ih

theorem runWrites_no_asserted (w : String → Bool) (out_dir : String) (l : List String) :
    assertedFigs (runWrites w out_dir l).1 = [] := by
  induction l with
  | nil => rfl
  | cons n ns ih =>
    rw [runWrites]
    by_cases hn : w (outputPath out_dir n) = true
    · simp [hn, assertedFigs]
    · simp only [hn, Bool.false_eq_true, if_false]
      simpa [assertedFigs] using ih

theorem writtenPaths_computed_map (l : List EdaStep) :
    writtenPaths (l.map Event.computed) = [] := by
  induction l with
  | nil => rfl
  | cons s ss ih => simpa [writtenPaths] using ih

theorem writtenPaths_assert_map (l : List FigId) :
    writtenPaths (l.map Event.assertChecked) = [] := by
  induction l with
  | nil => rfl
  | cons f fs ih => simpa [writtenPaths] using ih

theorem computedSteps_assert_map (l : List FigId) :
    computedSteps (l.map Event.assertChecked) = [] := by
  induction l with
  | nil => rfl
  | cons f fs ih => simpa [computedSteps] using ih

theorem assertedFigs_wrote_map (l : List String) (g : String → String) :
    assertedFigs (l.map (fun n => Event.wrote (g n))) = [] := by
  induction l with
  | nil => rfl
  | cons n ns ih => simpa [assertedFigs] using ih

theorem writtenPaths_printed (s : String) : writtenPaths [Event.printed s] = [] := rfl

theorem computedSteps_printed (s : String) : computedSteps [Event.printed s] = [] := rfl

theorem assertedFigs_printed (s : String) : assertedFigs [Event.printed s] = [] := rfl

theorem normalizeChurn_comp (w : PyVal) :
    (fun x => if x = PyVal.vBool false then PyVal.vStr "False" else x)
      ((fun x => if x = PyVal.vBool true then PyVal.vStr "True" else x) w)
    = (if w = PyVal.vBool true then PyVal.vStr "True"
       else if w = PyVal.vBool false then PyVal.vStr "False" else w) := by
  cases w with
  | vBool b => cases b <;> decide
  | vStr s => simp
  | vNum n => simp
  | vNull => decide

theorem normalizeChurn_eq_map (vs : List PyVal) :
    normalizeChurn vs = vs.map (fun w =>
      if w = PyVal.vBool true then PyVal.vStr "True"
      else if w = PyVal.vBool false then PyVal.vStr "False" else w) := by
  rw [normalizeChurn, seriesReplace, seriesReplace, List.map_map]
  exact List.map_congr_left (fun w _ => normalizeChurn_comp w)

theorem applyRename_not_mem (m : List (String × String)) (n : String)
    (h : ∀ p ∈ m, p.1 ≠ n) : applyRename m n = n := by
  induction m with
  | nil => rfl
  | cons p rest ih =>
    obtain ⟨src, dst⟩ := p
    rw [applyRename,
      if_neg (fun he : n = src => h (src, dst) (List.mem_cons_self _ _) he.symm)]
    exact ih (fun q hq => h q (List.mem_cons_of_mem _ hq))

theorem applyRename_entries : ∀ p ∈ renameMap, applyRename renameMap p.1 = p.2 := by
  decide

/-! ### Claim theorems -/

/-- C1 counterexample: on a fully successful execution `run` writes six
files, not seven; the claimed count of seven output files is false. -/
theorem run_writes_seven_cex :
    writtenPaths (run goodEnv "input.csv" "out/").1 =
      ["out/table_1_cat_unique_values.png", "out/figure_1_class_imbalance.png",
       "out/figure_2_numeric_feat_dist.png", "out/figure_3_numeric_feat_corr.png",
       "out/figure_4_cat_feat_churn_dist.png", "out/figure_5_cat_feat_2dhist.png"]
    ∧ (writtenPaths (run goodEnv "input.csv" "out/").1).length ≠ 7 := by
  decide

/-- C1 (amended): for every well-formed input (the CSV parses, the
`Churn` column is present, no chart object is null, all writes succeed),
`run` terminates without error and writes exactly the six fixed output
files into `out_dir`, in order: `table_1_cat_unique_values.png`,
`figure_1_class_imbalance.png`, `figure_2_numeric_feat_dist.png`,
`figure_3_numeric_feat_corr.png`, `figure_4_cat_feat_churn_dist.png`,
`figure_5_cat_feat_2dhist.png`. -/
theorem run_writes_exactly_six (env : Env) (input out_dir : String)
    (df : DataFrame) (churn : List PyVal)
    (hcsv : env.csv = Except.ok df) (hchurn : getCol df "Churn" = some churn)
    (hfig : ∀ f, env.figIsNone f = false) (hw : ∀ p, env.writeFails p = false) :
    (∃ d, (run env input out_dir).2 = Except.ok d)
    ∧ writtenPaths (run env input out_dir).1 =
        [outputPath out_dir "table_1_cat_unique_values.png",
         outputPath out_dir "figure_1_class_imbalance.png",
         outputPath out_dir "figure_2_numeric_feat_dist.png",
         outputPath out_dir "figure_3_numeric_feat_corr.png",
         outputPath out_dir "figure_4_cat_feat_churn_dist.png",
         outputPath out_dir "figure_5_cat_feat_2dhist.png"] := by
  rw [run_success_shape env input out_dir df churn hcsv hchurn hfig hw]
  refine ⟨⟨processDF df churn, rfl⟩, ?_⟩
  simp [writtenPaths_append, ensureDir_no_wrote, writtenPaths_computed_map,
    writtenPaths_assert_map, writtenPaths_wrote_map, writtenPaths_printed,
    outFiles]
  rfl

/-- C1 witness: the amended statement at a concrete environment. -/
theorem run_writes_exactly_six_witness :
    (∃ d, (run goodEnv "input.csv" "out/").2 = Except.ok d)
    ∧ writtenPaths (run goodEnv "input.csv" "out/").1 =
        [outputPath "out/" "table_1_cat_unique_values.png",
         outputPath "out/" "figure_1_class_imbalance.png",
         outputPath "out/" "figure_2_numeric_feat_dist.png",
         outputPath "out/" "figure_3_numeric_feat_corr.png",
         outputPath "out/" "figure_4_cat_feat_churn_dist.png",
         outputPath "out/" "figure_5_cat_feat_2dhist.png"] :=
  run_writes_exactly_six goodEnv "input.csv" "out/" sampleDF
    [PyVal.vStr "Yes", PyVal.vStr "No"] rfl rfl (fun _ => rfl) (fun _ => rfl)

/-- C2 counterexample: with the real-world string labels "Yes"/"No" the
processed Dataset's Churn column still holds "Yes", which is neither the
literal "True" nor "False" — the claim fails for such inputs. -/
theorem churn_literals_cex :
    getCol ((run goodEnv "input.csv" "out/").2.toOption.getD []) "Churn"
      = some [PyVal.vStr "Yes", PyVal.vStr "No"]
    ∧ PyVal.vStr "Yes" ≠ PyVal.vStr "True"
    ∧ PyVal.vStr "Yes" ≠ PyVal.vStr "False" := by
  decide

/-- C2 (amended): after the label-normalization step the Churn column
contains no boolean values, and when the input Churn column consists
solely of booleans the result contains only the literal strings "True"
and "False". -/
theorem churn_normalized (vs : List PyVal) :
    (∀ v ∈ normalizeChurn vs, ∀ b, v ≠ PyVal.vBool b)
    ∧ ((∀ v ∈ vs, ∃ b, v = PyVal.vBool b) →
        ∀ v ∈ normalizeChurn vs, v = PyVal.vStr "True" ∨ v = PyVal.vStr "False") := by
  rw [normalizeChurn_eq_map]
  constructor
  · intro v hv b
    rw [List.mem_map] at hv
    obtain ⟨w, hw, rfl⟩ := hv
    cases w with
    | vBool b2 => cases b2 <;> simp
    | vStr s => simp
    | vNum n => simp
    | vNull => simp
  · intro hall v hv
    rw [List.mem_map] at hv
    obtain ⟨w, hw, rfl⟩ := hv
    obtain ⟨b, rfl⟩ := hall w hw
    cases b <;> simp

/-- C2 witness: the amended statement evaluated on an all-boolean
column. -/
theorem churn_normalized_witness :
    PyVal.vStr "True" = PyVal.vStr "True" ∨ PyVal.vStr "True" = PyVal.vStr "False" :=
  (churn_normalized [PyVal.vBool true, PyVal.vBool false]).2 (by decide)
    (PyVal.vStr "True") (by decide)

/-- C3: every one of the 15 fixed source column names present in the
input appears under its display name in the renamed Dataset with its
values untouched, and any column whose name is outside the mapping
keeps its name and values. -/
theorem rename_maps_and_preserves (df : DataFrame) :
    (∀ src dst, (src, dst) ∈ renameMap →
        ∀ vs, (src, vs) ∈ df → (dst, vs) ∈ renameCols renameMap df)
    ∧ (∀ n vs, (n, vs) ∈ df → (∀ p ∈ renameMap, p.1 ≠ n) →
        (n, vs) ∈ renameCols renameMap df) := by
  constructor
  · intro src dst hmem vs hin
    have h1 : applyRename renameMap src = dst := applyRename_entries (src, dst) hmem
    have h2 := List.mem_map_of_mem
      (fun c : String × List PyVal => (applyRename renameMap c.1, c.2)) hin
    rw [renameCols]
    simpa [h1] using h2
  · intro n vs hin hnotin
    have h1 : applyRename renameMap n = n := applyRename_not_mem renameMap n hnotin
    have h2 := List.mem_map_of_mem
      (fun c : String × List PyVal => (applyRename renameMap c.1, c.2)) hin
    rw [renameCols]
    simpa [h1] using h2

/-- C3 witness: on the sample dataframe, `tenure` is renamed to
`Tenure` and the unmapped `customerID` column survives unchanged. -/
theorem rename_maps_and_preserves_witness :
    ("Tenure", [PyVal.vNum 1, PyVal.vNum 2]) ∈ renameCols renameMap sampleDF
    ∧ ("customerID", [PyVal.vStr "001", PyVal.vStr "002"]) ∈ renameCols renameMap sampleDF :=
  ⟨(rename_maps_and_preserves sampleDF).1 "tenure" "Tenure" (by decide)
      [PyVal.vNum 1, PyVal.vNum 2] (by decide),
   (rename_maps_and_preserves sampleDF).2 "customerID"
      [PyVal.vStr "001", PyVal.vStr "002"] (by decide) (by decide)⟩

/-- C4: the categorical summary table has exactly one row per
non-numeric (object-typed) column of the dataframe it is built from —
same names, same order, same count — and each row's Categories and
Missing values entries equal the direct recounts (distinct non-null
values, and nulls) over that column. -/
theorem catSummary_correct (df : DataFrame) :
    (catSummary df).map CatRow.feature
      = (df.filter (fun c => colIsObject c.2)).map Prod.fst
    ∧ (catSummary df).length = (df.filter (fun c => colIsObject c.2)).length
    ∧ ∀ row ∈ catSummary df, ∃ vs, (row.feature, vs) ∈ df
        ∧ colIsObject vs = true
        ∧ row.categories = countDistinctNonNull vs
        ∧ row.missingValues = countNulls vs := by
  refine ⟨?_, ?_, ?_⟩
  · rw [catSummary, List.map_map]
    rfl
  · rw [catSummary, List.length_map]
  · intro row hrow
    rw [catSummary, List.mem_map] at hrow
    obtain ⟨c, hc, rfl⟩ := hrow
    rw [List.mem_filter] at hc
    refine ⟨c.2, by simpa using hc.1, hc.2, ?_, rfl⟩
    exact nunique_eq_countDistinctNonNull c.2

/-- C4 witness: the summary of the sample dataframe has rows exactly
for its two object columns, and the Churn row matches the recounts. -/
theorem catSummary_correct_witness :
    (catSummary sampleDF).map CatRow.feature = ["customerID", "Churn"]
    ∧ ∃ vs, (("Churn" : String), vs) ∈ sampleDF
        ∧ colIsObject vs = true
        ∧ 2 = countDistinctNonNull vs
        ∧ 0 = countNulls vs := by
  refine ⟨(catSummary_correct sampleDF).1.trans (by decide), ?_⟩
  have h := (catSummary_correct sampleDF).2.2
    ⟨"Churn", [PyVal.vStr "Yes", PyVal.vStr "No"], 2, 0⟩ (by decide)
  simpa using h

/-- C5 counterexample: the computation order claimed by the spec — with
the categorical summary table last — is not the order `run` follows. -/
theorem compute_order_cex :
    computedSteps (run goodEnv "input.csv" "out/").1 ≠
      [EdaStep.classImbalance, EdaStep.numericDist, EdaStep.corrHeatmap,
       EdaStep.catChurnDist, EdaStep.cat2dHist, EdaStep.catSummaryTable] := by
  decide

/-- C5 (amended): `run` computes its six visual summaries in this
order: the class-imbalance bar chart, the numeric-feature histograms,
the correlation heatmap, then the categorical summary table (fourth,
not last), then the categorical churn-distribution charts, and last the
categorical 2D histogram. -/
theorem compute_order_correct (env : Env) (input out_dir : String)
    (df : DataFrame) (churn : List PyVal)
    (hcsv : env.csv = Except.ok df) (hchurn : getCol df "Churn" = some churn) :
    computedSteps (run env input out_dir).1 =
      [EdaStep.classImbalance, EdaStep.numericDist, EdaStep.corrHeatmap,
       EdaStep.catSummaryTable, EdaStep.catChurnDist, EdaStep.cat2dHist] := by
  unfold run runRest
  rw [hcsv]
  simp only [hchurn]
  cases hra : (runAsserts env.figIsNone assertOrder).2 with
  | some e =>
    simp only [computedSteps_append, ensureDir_no_computed,
      computedSteps_computed_map, runAsserts_no_computed,
      List.append_nil, List.nil_append]
    rfl
  | none =>
    cases hrw : (runWrites env.writeFails out_dir outFiles).2 with
    | some e =>
      simp only [computedSteps_append, ensureDir_no_computed,
        computedSteps_computed_map, runAsserts_no_computed,
        runWrites_no_computed, List.append_nil, List.nil_append]
      rfl
    | none =>
      simp only [computedSteps_append, ensureDir_no_computed,
        computedSteps_computed_map, runAsserts_no_computed,
        runWrites_no_computed, computedSteps_printed,
        List.append_nil, List.nil_append]
      rfl

/-- C5 witness: the amended order at a concrete environment. -/
theorem compute_order_correct_witness :
    computedSteps (run goodEnv "input.csv" "out/").1 =
      [EdaStep.classImbalance, EdaStep.numericDist, EdaStep.corrHeatmap,
       EdaStep.catSummaryTable, EdaStep.catChurnDist, EdaStep.cat2dHist] :=
  compute_order_correct goodEnv "input.csv" "out/" sampleDF
    [PyVal.vStr "Yes", PyVal.vStr "No"] rfl rfl

/-- C6: when the output directory is missing, a directory-creation
failure is caught and logged and execution continues identically apart
from the log line; a CSV parse error, a missing Churn column, and a
failing file write each propagate as the uncaught terminating error. -/
theorem error_handling (env : Env) (input out_dir : String)
    (hdir : env.dirExists = false) :
    ((run { env with mkdirFails := true } input out_dir).2
        = (run { env with mkdirFails := false } input out_dir).2
      ∧ ∃ rest,
          (run { env with mkdirFails := true } input out_dir).1
            = Event.mkdirTried :: Event.logMsg mkdirFailMsg :: rest
          ∧ (run { env with mkdirFails := false } input out_dir).1
            = Event.mkdirTried :: rest)
    ∧ (∀ m, env.csv = Except.error m →
        (run env input out_dir).2 = Except.error (RunError.pandasError m))
    ∧ (∀ df, env.csv = Except.ok df → getCol df "Churn" = none →
        (run env input out_dir).2 = Except.error (RunError.keyError "Churn"))
    ∧ (∀ df churn, env.csv = Except.ok df → getCol df "Churn" = some churn →
        (∀ f, env.figIsNone f = false) →
        env.writeFails (outputPath out_dir "table_1_cat_unique_values.png") = true →
        (run env input out_dir).2
          = Except.error (RunError.ioError
              (outputPath out_dir "table_1_cat_unique_values.png"))) := by
  obtain ⟨d, mkd, csvr, fig, wf⟩ := env
  replace hdir : d = false := hdir
  subst hdir
  refine ⟨⟨rfl, (runRest ⟨false, true, csvr, fig, wf⟩ out_dir).1, rfl, ?_⟩, ?_, ?_, ?_⟩
  · show Event.mkdirTried :: (runRest ⟨false, false, csvr, fig, wf⟩ out_dir).1
        = Event.mkdirTried :: (runRest ⟨false, true, csvr, fig, wf⟩ out_dir).1
    rfl
  · intro m hm
    exact run_csv_error _ input out_dir m hm
  · intro df hok hnone
    exact run_missing_churn _ input out_dir df hok hnone
  · intro df churn hok hsome hfig hw1
    exact run_write_fail_first _ input out_dir df churn hok hsome hfig hw1

/-- C6 witness: with a missing directory and a failing CSV read, the
parse error is the uncaught result. -/
theorem error_handling_witness :
    (run errEnv "input.csv" "out/").2 = Except.error (RunError.pandasError "boom") :=
  (error_handling errEnv "input.csv" "out/" rfl).2.1 "boom" rfl

/-- C7: before writing any artifact `run` assert-checks the five chart
objects — class imbalance, correlation heatmap, categorical churn
distribution, categorical 2D histogram, numeric distributions, in the
source order — and if any of them is null the execution ends with
`AssertionError "Output figure is empty"`. -/
theorem assert_five_figs (env : Env) (input out_dir : String)
    (df : DataFrame) (churn : List PyVal)
    (hcsv : env.csv = Except.ok df) (hchurn : getCol df "Churn" = some churn) :
    ((∀ f, env.figIsNone f = false) →
        assertedFigs (run env input out_dir).1
          = [FigId.classImbalance, FigId.corrHeatmap, FigId.catChurnDist,
             FigId.cat2dHist, FigId.numericDist])
    ∧ ((∃ f, env.figIsNone f = true) →
        (run env input out_dir).2
          = Except.error (RunError.assertionError "Output figure is empty")) := by
  constructor
  · intro hfig
    have hra := runAsserts_ok env.figIsNone assertOrder (fun f _ => hfig f)
    unfold run runRest
    rw [hcsv]
    simp only [hchurn, hra]
    cases hrw : (runWrites env.writeFails out_dir outFiles).2 with
    | some e =>
      simp only [assertedFigs_append, ensureDir_no_asserted,
        assertedFigs_computed_map, assertedFigs_checked_map,
        runWrites_no_asserted, List.append_nil, List.nil_append]
      rfl
    | none =>
      simp only [assertedFigs_append, ensureDir_no_asserted,
        assertedFigs_computed_map, assertedFigs_checked_map,
        runWrites_no_asserted, assertedFigs_printed,
        List.append_nil, List.nil_append]
      rfl
  · intro hnull
    exact (run_assert_fail env input out_dir df churn hcsv hchurn hnull).1

/-- C7 witness: with every chart object null, the run ends in the
assertion failure. -/
theorem assert_five_figs_witness :
    (run nullFigEnv "input.csv" "out/").2
      = Except.error (RunError.assertionError "Output figure is empty") :=
  (assert_five_figs nullFigEnv "input.csv" "out/" sampleDF
    [PyVal.vStr "Yes", PyVal.vStr "No"] rfl rfl).2 ⟨FigId.classImbalance, rfl⟩

/-- C8: the label-normalization step maps every non-boolean value of
the Churn column to itself, preserves the column length, and leaves
every other column of the dataframe untouched. -/
theorem normalize_frame (df : DataFrame) (churn : List PyVal)
    (hc : getCol df "Churn" = some churn) :
    (normalizeChurn churn).length = churn.length
    ∧ (∀ i, i < churn.length → (∀ b, churn[i]! ≠ PyVal.vBool b) →
        (normalizeChurn churn)[i]! = churn[i]!)
    ∧ (∀ name, name ≠ "Churn" →
        getCol (setCol df "Churn" (normalizeChurn churn)) name = getCol df name) := by
  refine ⟨?_, ?_, ?_⟩
  · rw [normalizeChurn_eq_map, List.length_map]
  · intro i hi hb
    rw [getElem!_pos churn i hi] at hb
    rw [normalizeChurn_eq_map,
      getElem!_pos (churn.map _) i (by rwa [List.length_map]),
      List.getElem_map, getElem!_pos churn i hi]
    have h1 : churn[i] ≠ PyVal.vBool true := hb true
    have h2 : churn[i] ≠ PyVal.vBool false := hb false
    simp [h1, h2]
  · intro name hname
    exact getCol_setCol_ne df "Churn" name (normalizeChurn churn) hname

/-- Sample dataframe for the frame-effect witness: a Churn column with
a string and a null, plus an unrelated numeric column. -/
def frameDF : DataFrame :=
  [("Churn", [PyVal.vStr "Yes", PyVal.vNull]), ("x", [PyVal.vNum 7])]

/-- C8 witness: the normalization leaves the non-boolean "Yes"
unchanged and does not modify the unrelated column. -/
theorem normalize_frame_witness :
    (normalizeChurn [PyVal.vStr "Yes", PyVal.vNull]).length = 2
    ∧ (normalizeChurn [PyVal.vStr "Yes", PyVal.vNull])[0]! = PyVal.vStr "Yes"
    ∧ getCol (setCol frameDF "Churn" (normalizeChurn [PyVal.vStr "Yes", PyVal.vNull])) "x"
        = getCol frameDF "x" := by
  have h := normalize_frame frameDF [PyVal.vStr "Yes", PyVal.vNull] rfl
  refine ⟨h.1, ?_, h.2.2 "x" (by decide)⟩
  have h2 := h.2.1 0 (by decide) (by decide)
  exact h2.trans (by decide)

/-- C9: on a fully successful execution every output file path is the
direct concatenation of `out_dir` with the fixed file name (no
separator inserted); consequently, for any `out_dir` that is nonempty
and does not end in a path separator, each artifact's final path
component is `out_dir`'s last component glued to the file name rather
than the bare file name — the artifacts land beside `out_dir`, not
inside it. -/
theorem output_paths_concat (env : Env) (input out_dir : String)
    (df : DataFrame) (churn : List PyVal)
    (hcsv : env.csv = Except.ok df) (hchurn : getCol df "Churn" = some churn)
    (hfig : ∀ f, env.figIsNone f = false) (hw : ∀ p, env.writeFails p = false) :
    writtenPaths (run env input out_dir).1 = outFiles.map (fun n => out_dir ++ n)
    ∧ (∀ n ∈ outFiles, lastComponent (out_dir ++ n) = lastComponent out_dir ++ n)
    ∧ (out_dir ≠ "" → out_dir.data.getLast? ≠ some '/' →
        ∀ n ∈ outFiles, lastComponent (out_dir ++ n) ≠ n) := by
  have hslash : ∀ n ∈ outFiles, ∀ c ∈ n.data, c ≠ '/' := by decide
  refine ⟨?_, ?_, ?_⟩
  · rw [run_success_shape env input out_dir df churn hcsv hchurn hfig hw]
    simp [writtenPaths_append, ensureDir_no_wrote, writtenPaths_computed_map,
      writtenPaths_assert_map, writtenPaths_wrote_map, writtenPaths_printed,
      outFiles]
    rfl
  · intro n hn
    exact lastComponent_append out_dir n (hslash n hn)
  · intro h0 h1 n hn
    exact lastComponent_append_ne out_dir n (hslash n hn) h0 h1

/-- C9 witness: with `out_dir = "results"` the six artifacts are
written to `resultstable_1_...png` etc., sibling files of `results`. -/
theorem output_paths_concat_witness :
    writtenPaths (run goodEnv "input.csv" "results").1
      = outFiles.map (fun n => "results" ++ n)
    ∧ lastComponent ("results" ++ "table_1_cat_unique_values.png")
        ≠ "table_1_cat_unique_values.png" := by
  have h := output_paths_concat goodEnv "input.csv" "results" sampleDF
    [PyVal.vStr "Yes", PyVal.vStr "No"] rfl rfl (fun _ => rfl) (fun _ => rfl)
  exact ⟨h.1, h.2.2 (by decide) (by decide) "table_1_cat_unique_values.png" (by decide)⟩

/-- C10: if any of the five asserted chart objects is null, `run` ends
with the assertion failure and its trace contains no file write — no
partial output is produced on this failure path. -/
theorem assert_fail_no_partial_output (env : Env) (input out_dir : String)
    (df : DataFrame) (churn : List PyVal)
    (hcsv : env.csv = Except.ok df) (hchurn : getCol df "Churn" = some churn)
    (hnull : ∃ f, env.figIsNone f = true) :
    (run env input out_dir).2
      = Except.error (RunError.assertionError "Output figure is empty")
    ∧ writtenPaths (run env input out_dir).1 = [] := by
  have h := run_assert_fail env input out_dir df churn hcsv hchurn hnull
  exact ⟨h.1, h.2.1⟩

/-- C10 witness: the no-partial-output property at a concrete
environment with null charts. -/
theorem assert_fail_no_partial_output_witness :
    (run nullFigEnv "input.csv" "out/").2
      = Except.error (RunError.assertionError "Output figure is empty")
    ∧ writtenPaths (run nullFigEnv "input.csv" "out/").1 = [] :=
  assert_fail_no_partial_output nullFigEnv "input.csv" "out/" sampleDF
    [PyVal.vStr "Yes", PyVal.vStr "No"] rfl rfl ⟨FigId.classImbalance, rfl⟩
